import Mathlib

/-!
Shallow embedding of `src/deteccao_lib/detector_pessoas_video.py`
(classes `DetectorPessoasVideo` and `ModoDeteccao`), verified against
the natural-language specification of the repository.

Modelling conventions:
* wall-clock times and durations are rationals (`ℚ`); every call to
  `time.time()` made during one Python method invocation is modelled by a
  single time parameter `t` passed to the corresponding Lean function;
* the motion detector's `houve_mudanca()` answer is an input `Bool`;
* frames are opaque values (`ℕ`): no claim inspects pixel data;
* Python exceptions become `Except`/`Option` results.
-/

/-- The detection mode held in `self.modo`.  In Python it is a string:
`''` (initial value, `vazio` here), `'detectando'`, `'rastreando'` or
`'parado'`. -/
inductive Modo where
  | vazio
  | detectando
  | rastreando
  | parado
deriving DecidableEq, Repr

/-- The state of a `ModoDeteccao` object: the configuration captured by
`__init__` plus the mutable timing fields. -/
structure ModoDeteccaoState where
  max_tempo_sem_deteccao : ℚ
  max_tempo_parado : ℚ
  max_tempo_sem_atualizar_modo : ℚ
  usar_rastreamento : Bool
  tempo_em_que_parou : ℚ
  tempo_ultima_deteccao : ℚ
  modo : Modo
  modo_anterior : Modo
  tempo_ultima_checagem : ℚ
deriving DecidableEq, Repr

namespace ModoDeteccaoState

/-- Python `ModoDeteccao.__init__`, called at wall-clock time `t0`:
`tempo_em_que_parou = time.time() - max_tempo_parado`,
`tempo_ultima_deteccao = time.time() - max_tempo_sem_deteccao`,
`modo = ''`, `modo_anterior = ''`, `tempo_ultima_checagem = time.time()`.
`max_tempo_sem_atualizar_modo` defaults to `1` in Python. -/
def init (max_tempo_sem_deteccao max_tempo_parado : ℚ)
    (usar_rastreamento : Bool) (max_tempo_sem_atualizar_modo : ℚ)
    (t0 : ℚ) : ModoDeteccaoState :=
  { max_tempo_sem_deteccao := max_tempo_sem_deteccao
    max_tempo_parado := max_tempo_parado
    max_tempo_sem_atualizar_modo := max_tempo_sem_atualizar_modo
    usar_rastreamento := usar_rastreamento
    tempo_em_que_parou := t0 - max_tempo_parado
    tempo_ultima_deteccao := t0 - max_tempo_sem_deteccao
    modo := Modo.vazio
    modo_anterior := Modo.vazio
    tempo_ultima_checagem := t0 }

/-- Python `ModoDeteccao.atualiza_modo`, evaluated at wall-clock time `t` with
motion answer `teve_movimento` (the result of
`self.detector_movimento.houve_mudanca()`).

Mirrors the Python body line by line:
* `checagem_atual = time.time()` is `t`;
* `parado_demais = time.time() - tempo_em_que_parou >= max_tempo_parado`;
* `sem_detectar_demais = time.time() - tempo_ultima_deteccao >= max_tempo_sem_deteccao`;
* `max_tempo_checagem_excedido = tempo_ultima_checagem - checagem_atual > max_tempo_sem_atualizar_modo`
  (note the operand order: the stored previous-check time MINUS the
  current time, exactly as written in the source);
* the `if/elif` chain on `modo_anterior`; in the `'rastreando'` branch
  with a false condition the Python body assigns nothing, leaving
  `self.modo` (equal to `modo_anterior` there) unchanged;
* the trailing timestamp updates and `tempo_ultima_checagem = time.time()`. -/
def atualiza_modo (s : ModoDeteccaoState) (teve_movimento : Bool)
    (t : ℚ) : ModoDeteccaoState :=
  let modo_anterior := s.modo
  let checagem_atual := t
  let parado_demais : Bool := t - s.tempo_em_que_parou ≥ s.max_tempo_parado
  let sem_detectar_demais : Bool :=
    t - s.tempo_ultima_deteccao ≥ s.max_tempo_sem_deteccao
  let max_tempo_checagem_excedido : Bool :=
    s.tempo_ultima_checagem - checagem_atual > s.max_tempo_sem_atualizar_modo
  let modo : Modo :=
    if modo_anterior = Modo.detectando then
      if ¬teve_movimento then Modo.parado
      else if ¬s.usar_rastreamento ∨ max_tempo_checagem_excedido then
        Modo.detectando
      else Modo.rastreando
    else if modo_anterior = Modo.parado then
      if teve_movimento ∨ parado_demais then Modo.detectando else Modo.parado
    else if modo_anterior = Modo.rastreando then
      if ¬teve_movimento ∨ sem_detectar_demais ∨ max_tempo_checagem_excedido
      then Modo.detectando
      else s.modo
    else Modo.detectando
  let tempo_em_que_parou :=
    if modo = Modo.parado ∧ modo_anterior ≠ Modo.parado then t
    else s.tempo_em_que_parou
  let tempo_ultima_deteccao :=
    if ¬(modo = Modo.parado ∧ modo_anterior ≠ Modo.parado) ∧
        modo = Modo.detectando then t
    else s.tempo_ultima_deteccao
  { s with
    modo_anterior := modo_anterior
    modo := modo
    tempo_em_que_parou := tempo_em_que_parou
    tempo_ultima_deteccao := tempo_ultima_deteccao
    tempo_ultima_checagem := t }

/-- Python `ModoDeteccao.mudou_modo`. -/
def mudou_modo (s : ModoDeteccaoState) : Bool :=
  s.modo ≠ s.modo_anterior

end ModoDeteccaoState

/-- Python `DetectorPessoasVideo.__init__` keeps only these fields of the
configuration; the histories/registries it also creates are modelled
separately. -/
structure DetectorPessoasVideoConfig where
  max_tempo_sem_deteccao : ℚ
  max_tempo_parado : ℚ
  max_largura_frame : ℤ
  usar_rastreamento : Bool
deriving DecidableEq, Repr

/-- Python `DetectorPessoasVideo.__init__`: the argument validation from
the source, raising `ValueError` (modelled as `Except.error`) exactly when
`max_tempo_sem_deteccao < 0`, `max_tempo_parado <= 0` or
`max_largura_frame <= 0`, in that order; otherwise the configuration is
stored. -/
def DetectorPessoasVideoInit (max_tempo_sem_deteccao max_tempo_parado : ℚ)
    (max_largura_frame : ℤ) (usar_rastreamento : Bool) :
    Except String DetectorPessoasVideoConfig :=
  if max_tempo_sem_deteccao < 0 then
    Except.error "max_tempo_sem_deteccao deve ser um numero positivo."
  else if max_tempo_parado ≤ 0 then
    Except.error "max_tempo_parado deve ser um numero positivo ou zero."
  else if max_largura_frame ≤ 0 then
    Except.error "max_largura_frame deve ser um numero positivo ou zero."
  else
    Except.ok
      ⟨max_tempo_sem_deteccao, max_tempo_parado, max_largura_frame,
        usar_rastreamento⟩

/-- Axis-aligned pixel rectangle `(x, y, width, height)`, the data carried
for each detected or tracked person (spec data model; the loop never
inspects the fields). -/
structure Caixa where
  x : ℤ
  y : ℤ
  w : ℤ
  h : ℤ
deriving DecidableEq, Repr

/-- Modelled from the spec: class `CaixasObjetos` (the ObjectRegistry of
spec section 4.3) is code of this repository that is not under `src/`.
It holds the currently tracked boxes together with their scores. -/
structure CaixasObjetos where
  caixas : List Caixa
  pesos : List ℚ
deriving DecidableEq, Repr

namespace CaixasObjetos

/-- Modelled from the spec: the empty registry. -/
def vazio : CaixasObjetos := ⟨[], []⟩

/-- Modelled from the spec: `CaixasObjetos.atualizar` (merge).  With
`caixas_paradas = true` (frozen) the registry retains its held boxes and
scores unchanged, ignoring the fresh input; otherwise it replaces its
held set with the freshly supplied boxes and scores.  It returns the new
registry state together with the `(caixas, pesos)` pair as currently
held, which is what the Python call binds back into `caixas, pesos`. -/
def atualizar (r : CaixasObjetos) (caixas : List Caixa) (pesos : List ℚ)
    (caixas_paradas : Bool) : CaixasObjetos × List Caixa × List ℚ :=
  if caixas_paradas then (r, r.caixas, r.pesos)
  else (⟨caixas, pesos⟩, caixas, pesos)

/-- Modelled from the spec: `CaixasObjetos.reiniciar` clears all held
boxes immediately. -/
def reiniciar (_ : CaixasObjetos) : CaixasObjetos := vazio

/-- Modelled from the spec: the registry size (`count()`, Python
`__len__`), the number of currently held boxes. -/
def count (r : CaixasObjetos) : ℕ := r.caixas.length

end CaixasObjetos

/-- Modelled from the spec: class `PessoasHistorico` (the
OccupancyHistory of spec section 4.2) is code of this repository that is
not under `src/`.  The claims treated here depend only on which counts
are recorded into it, so the state is the list of counts passed to
`atualiza_periodo`, oldest first. -/
abbrev PessoasHistorico := List ℕ

/-- Modelled from the spec: recording one occupancy sample. -/
def PessoasHistorico.atualiza_periodo (h : PessoasHistorico) (n : ℕ) :
    PessoasHistorico := h ++ [n]

/-- The registry/history portion of one iteration of
`DetectorPessoasVideo.run` (the lines after the mode branch): if the
iteration's elapsed wall-clock time `t - tempo_comeco_iteracao` exceeds
`MAX_TEMPO_ENTRE_REGISTROS = 1.0` second the registry is reinitialised;
then `atualizar` is called with `caixas_paradas = (modo == 'parado')`,
and the length of the box list it returns is recorded into the
history. -/
def iteracaoRegistro (registradas : CaixasObjetos)
    (historico : PessoasHistorico) (modo : Modo) (caixas : List Caixa)
    (pesos : List ℚ) (tempo_comeco_iteracao t : ℚ) :
    CaixasObjetos × PessoasHistorico × List Caixa × List ℚ :=
  let registradas :=
    if t - tempo_comeco_iteracao > 1 then registradas.reiniciar
    else registradas
  let res := registradas.atualizar caixas pesos (modo == Modo.parado)
  (res.1, historico.atualiza_periodo res.2.1.length, res.2.1, res.2.2)

/-- The externally-observable calls made by `DetectorPessoasVideo.run`,
in program order: starting/stopping the video stream and the motion
detector, reading a frame, invoking the person detector or the tracker,
and the final `self.stop()`. -/
inductive Acao where
  | stream_start
  | detector_movimento_start
  | le_frame
  | detecta
  | rastreia
  | detector_movimento_stop
  | stream_stop
  | self_stop
deriving DecidableEq, Repr

/-- The mutable fields of a `DetectorPessoasVideo` object that
`run` reads or writes (besides the configuration): the registry, the
occupancy history, the published frame and mode, and the `stopped`
flag. -/
structure DetectorPessoasVideoState where
  registradas : CaixasObjetos
  historico : PessoasHistorico
  frame : Option ℕ
  modo : Modo
  stopped : Bool
deriving DecidableEq, Repr

/-- The environment's choices for one pass through the `while` loop of
`DetectorPessoasVideo.run`: the value of `self.stopped` observed at the
loop head (it is only ever set by an external `stop()` call), the
outcome of `stream.read()` (`none` models `StreamClosedError` /
`StreamStoppedError`), the wall-clock time at the loop head, the motion
answer and wall-clock time used by `atualiza_modo`, the outcome of
`detectorPessoas.detectar` (`none` models a raised exception; consulted
only in `detectando` mode), the tracker's output boxes, and the
wall-clock time at the slow-iteration check. -/
structure IterInput where
  stop_sinal : Bool
  leitura : Option ℕ
  tempo_comeco_iteracao : ℚ
  movimento : Bool
  tempo : ℚ
  deteccao : Option (List Caixa × List ℚ)
  rastreio : List Caixa
  tempo_registro : ℚ
deriving DecidableEq, Repr

/-- The cleanup code after the `while` loop of `DetectorPessoasVideo.run`:
`detector_movimento.stop()`, then `self.stream.stop()` only when the
stream is not external, then `self.stop()` (which sets
`self.stopped = True`). -/
def encerraRun (stream_externo : Bool) (self : DetectorPessoasVideoState)
    (acoes : List Acao) : DetectorPessoasVideoState × List Acao :=
  ({ self with stopped := true },
    acoes ++ [Acao.detector_movimento_stop] ++
      (if stream_externo then [] else [Acao.stream_stop]) ++
      [Acao.self_stop])

/-- The `while not self.stopped` loop of `DetectorPessoasVideo.run`,
driven by the list of scheduled environment inputs.  It returns `none`
when the schedule is exhausted while the loop is still running, and
`some (final_state, actions)` when the loop terminates within the
schedule.  Loop exits mirror the source: the `while` condition becoming
false, a `break` on a frame-read failure, and a `break` on a detection
failure; every exit runs the cleanup code `encerraRun`. -/
def runLoop (stream_externo : Bool) :
    List IterInput → ModoDeteccaoState → DetectorPessoasVideoState →
    List Acao → Option (DetectorPessoasVideoState × List Acao)
  | [], _, _, _ => none
  | entrada :: resto, modo_deteccao, self, acoes =>
    if self.stopped || entrada.stop_sinal then
      some (encerraRun stream_externo self acoes)
    else
      match entrada.leitura with
      | none => some (encerraRun stream_externo self (acoes ++ [Acao.le_frame]))
      | some frame =>
        let modo_deteccao' :=
          modo_deteccao.atualiza_modo entrada.movimento entrada.tempo
        let modo := modo_deteccao'.modo
        let ramo : Option (List Caixa × List ℚ × List Acao) :=
          if modo = Modo.detectando then
            match entrada.deteccao with
            | none => none
            | some (caixas, pesos) =>
              some (caixas, pesos, [Acao.le_frame, Acao.detecta])
          else if modo = Modo.rastreando then
            some (entrada.rastreio, [], [Acao.le_frame, Acao.rastreia])
          else
            some ([], [], [Acao.le_frame])
        match ramo with
        | none =>
          some (encerraRun stream_externo self
            (acoes ++ [Acao.le_frame, Acao.detecta]))
        | some (caixas, pesos, acoes_ramo) =>
          let res := iteracaoRegistro self.registradas self.historico modo
            caixas pesos entrada.tempo_comeco_iteracao entrada.tempo_registro
          let self' : DetectorPessoasVideoState :=
            { self with
              registradas := res.1
              historico := res.2.1
              frame := some frame
              modo := modo }
          runLoop stream_externo resto modo_deteccao' self'
            (acoes ++ acoes_ramo)

/-- Python `DetectorPessoasVideo.run`.  If the stream or the person
detector has not been configured it returns at once, performing no
action and leaving the object state untouched.  Otherwise it starts the
stream and the motion detector, creates a fresh `ModoDeteccao` at time
`t0` (with the default `max_tempo_sem_atualizar_modo = 1`) and enters
the `while` loop. -/
def DetectorPessoasVideoRun (stream_configurado detector_configurado
    stream_externo : Bool) (cfg : DetectorPessoasVideoConfig) (t0 : ℚ)
    (self : DetectorPessoasVideoState) (entradas : List IterInput) :
    Option (DetectorPessoasVideoState × List Acao) :=
  if ¬stream_configurado ∨ ¬detector_configurado then some (self, [])
  else
    runLoop stream_externo entradas
      (ModoDeteccaoState.init cfg.max_tempo_sem_deteccao
        cfg.max_tempo_parado cfg.usar_rastreamento 1 t0)
      self
      [Acao.stream_start, Acao.detector_movimento_start]

/-! Concrete traces of the mode controller.

Trace A: configuration `max_tempo_sem_deteccao = 5`,
`max_tempo_parado = 60`, `usar_rastreamento = true`,
`max_tempo_sem_atualizar_modo = 1`, controller created at time `0`,
motion always present. -/

theorem traceA_s1 :
    (ModoDeteccaoState.init 5 60 true 1 0).atualiza_modo true 0 =
      ⟨5, 60, 1, true, -60, 0, Modo.detectando, Modo.vazio, 0⟩ := by
  norm_num [ModoDeteccaoState.init, ModoDeteccaoState.atualiza_modo] <;> decide

theorem traceA_s2 :
    (⟨5, 60, 1, true, -60, 0, Modo.detectando, Modo.vazio, 0⟩ :
        ModoDeteccaoState).atualiza_modo true (1/10) =
      ⟨5, 60, 1, true, -60, 0, Modo.rastreando, Modo.detectando, 1/10⟩ := by
  norm_num [ModoDeteccaoState.atualiza_modo] <;> decide

theorem traceA_s3 :
    (⟨5, 60, 1, true, -60, 0, Modo.rastreando, Modo.detectando, 1/10⟩ :
        ModoDeteccaoState).atualiza_modo true (2/10) =
      ⟨5, 60, 1, true, -60, 0, Modo.rastreando, Modo.rastreando, 2/10⟩ := by
  norm_num [ModoDeteccaoState.atualiza_modo] <;> decide

/-- C1: evaluation of the code at the failing input.  After two
evaluations from a fresh controller (`max_tempo_sem_deteccao = 5`,
`max_tempo_parado = 60`, tracking enabled,
`max_tempo_sem_atualizar_modo = 1`) the mode is `rastreando`; the third
evaluation at time `21/10` has motion present, time since the previous
evaluation `21/10 - 1/10 = 2 > 1` (so the claim requires `detectando`),
and time since the last detection `21/10 - 0 < 5`; yet the code keeps
the mode `rastreando`, because on line 409 it computes
`tempo_ultima_checagem - checagem_atual` (never positive) instead of the
elapsed time since the previous evaluation. -/
theorem C1_rastreando_checagem_atrasada :
    (21/10 : ℚ) -
        (((ModoDeteccaoState.init 5 60 true 1 0).atualiza_modo true
              0).atualiza_modo true (1/10)).tempo_ultima_checagem > 1
    ∧ (21/10 : ℚ) -
        (((ModoDeteccaoState.init 5 60 true 1 0).atualiza_modo true
              0).atualiza_modo true (1/10)).tempo_ultima_deteccao < 5
    ∧ (((ModoDeteccaoState.init 5 60 true 1 0).atualiza_modo true
          0).atualiza_modo true (1/10)).modo = Modo.rastreando
    ∧ ((((ModoDeteccaoState.init 5 60 true 1 0).atualiza_modo true
          0).atualiza_modo true (1/10)).atualiza_modo true (21/10)).modo =
        Modo.rastreando := by
  rw [traceA_s1, traceA_s2]
  refine ⟨by norm_num, by norm_num, rfl, ?_⟩
  norm_num [ModoDeteccaoState.atualiza_modo] <;> decide

/-- C2: evaluation of the code at the failing input.  From a fresh
controller with tracking enabled, the first evaluation yields
`detectando`; the second evaluation at time `3` has motion present and
time since the previous evaluation `3 - 0 = 3 > 1 =
max_tempo_sem_atualizar_modo`, so the claim requires the mode to stay
`detectando`; yet the code yields `rastreando`, because line 409
computes `tempo_ultima_checagem - checagem_atual` (never positive)
instead of the elapsed time since the previous evaluation. -/
theorem C2_detectando_checagem_atrasada :
    ((ModoDeteccaoState.init 5 60 true 1 0).atualiza_modo true 0).modo =
        Modo.detectando
    ∧ (3 : ℚ) -
        ((ModoDeteccaoState.init 5 60 true 1 0).atualiza_modo true
          0).tempo_ultima_checagem > 1
    ∧ (((ModoDeteccaoState.init 5 60 true 1 0).atualiza_modo true
          0).atualiza_modo true 3).modo = Modo.rastreando := by
  rw [traceA_s1]
  refine ⟨rfl, by norm_num, ?_⟩
  norm_num [ModoDeteccaoState.atualiza_modo] <;> decide

/-- C4: the spec scenario.  With `max_tempo_sem_deteccao = 5`,
`max_tempo_parado = 60`, tracking enabled and checks `0.1` seconds
apart, motion always present, the evaluations starting from a fresh
controller yield `detectando`, `rastreando`, `rastreando`; the next
evaluation at time `26/5` (more than `5` seconds after the last
detection at time `0`) yields `detectando` again. -/
theorem C4_cenario_rastreamento :
    ((ModoDeteccaoState.init 5 60 true 1 0).atualiza_modo true 0).modo =
        Modo.detectando
    ∧ (((ModoDeteccaoState.init 5 60 true 1 0).atualiza_modo true
          0).atualiza_modo true (1/10)).modo = Modo.rastreando
    ∧ ((((ModoDeteccaoState.init 5 60 true 1 0).atualiza_modo true
          0).atualiza_modo true (1/10)).atualiza_modo true (2/10)).modo =
        Modo.rastreando
    ∧ (((((ModoDeteccaoState.init 5 60 true 1 0).atualiza_modo true
          0).atualiza_modo true (1/10)).atualiza_modo true (2/10)).atualiza_modo
            true (26/5)).modo = Modo.detectando := by
  rw [traceA_s1, traceA_s2, traceA_s3]
  refine ⟨rfl, rfl, rfl, ?_⟩
  norm_num [ModoDeteccaoState.atualiza_modo] <;> decide

/-! Trace B: configuration as trace A but with tracking disabled
(`usar_rastreamento = false`), controller created at time `0`, motion
always present. -/

theorem traceB_s1 :
    (ModoDeteccaoState.init 5 60 false 1 0).atualiza_modo true 0 =
      ⟨5, 60, 1, false, -60, 0, Modo.detectando, Modo.vazio, 0⟩ := by
  norm_num [ModoDeteccaoState.init, ModoDeteccaoState.atualiza_modo] <;> decide

theorem traceB_s2 :
    (⟨5, 60, 1, false, -60, 0, Modo.detectando, Modo.vazio, 0⟩ :
        ModoDeteccaoState).atualiza_modo true 3 =
      ⟨5, 60, 1, false, -60, 3, Modo.detectando, Modo.detectando, 3⟩ := by
  norm_num [ModoDeteccaoState.atualiza_modo] <;> decide

/-- C5 counterexample: with tracking disabled, the first evaluation of a
fresh controller yields `detectando` and records detection time `0`; the
second evaluation at time `3` yields `detectando` again — the mode does
not change, so the mode does not *become* `detectando` there — yet
`tempo_ultima_deteccao` is re-recorded to `3`.  The Δdetect clock is
therefore not reset exactly on entering `detectando`: it is also reset
when the mode stays `detectando`. -/
theorem C5_relogio_reiniciado_sem_entrada :
    ((ModoDeteccaoState.init 5 60 false 1 0).atualiza_modo true 0).modo =
        Modo.detectando
    ∧ ((ModoDeteccaoState.init 5 60 false 1 0).atualiza_modo true
          0).tempo_ultima_deteccao = 0
    ∧ (((ModoDeteccaoState.init 5 60 false 1 0).atualiza_modo true
          0).atualiza_modo true 3).modo = Modo.detectando
    ∧ (((ModoDeteccaoState.init 5 60 false 1 0).atualiza_modo true
          0).atualiza_modo true 3).tempo_ultima_deteccao = 3 := by
  rw [traceB_s1, traceB_s2]
  exact ⟨rfl, rfl, rfl, rfl⟩

theorem tempo_deteccao_cond (M A : Modo) (t old : ℚ) :
    (if ¬(M = Modo.parado ∧ A ≠ Modo.parado) ∧ M = Modo.detectando then t
      else old) = if M = Modo.detectando then t else old := by
  cases M <;> cases A <;> simp

/-- C5 amended: on every evaluation, `tempo_ultima_deteccao` (the
Δdetect clock) is set to the current time exactly when the resulting
mode is `detectando` — whether the controller enters `detectando` or
stays in it — and is left unchanged otherwise. -/
theorem C5_relogio_deteccao_atualizacao (s : ModoDeteccaoState)
    (m : Bool) (t : ℚ) :
    (s.atualiza_modo m t).tempo_ultima_deteccao =
      if (s.atualiza_modo m t).modo = Modo.detectando then t
      else s.tempo_ultima_deteccao := by
  simp only [ModoDeteccaoState.atualiza_modo]
  exact tempo_deteccao_cond _ _ _ _

/-- C3: from previous mode `parado` the next mode is `detectando` if and
only if motion was present or the time since the mode last became
`parado` reached `max_tempo_parado` (so detection is forced even with no
motion); otherwise the mode stays `parado`.  Moreover (for every
evaluation, of any state `s'`) the Δstop clock `tempo_em_que_parou` is
set to the current time exactly when the resulting mode is `parado` and
the previous mode was not `parado`, and is unchanged otherwise. -/
theorem C3_parado_transicao_e_relogio (s s' : ModoDeteccaoState)
    (m m' : Bool) (t t' : ℚ) (h : s.modo = Modo.parado) :
    ((s.atualiza_modo m t).modo = Modo.detectando ↔
      m = true ∨ s.max_tempo_parado ≤ t - s.tempo_em_que_parou)
    ∧ ((s.atualiza_modo m t).modo = Modo.detectando ∨
        (s.atualiza_modo m t).modo = Modo.parado)
    ∧ ((s'.atualiza_modo m' t').tempo_em_que_parou =
        if (s'.atualiza_modo m' t').modo = Modo.parado ∧
            s'.modo ≠ Modo.parado then t'
        else s'.tempo_em_que_parou) := by
  refine ⟨?_, ?_, ?_⟩
  · simp [ModoDeteccaoState.atualiza_modo, h]
    cases m <;> simp
  · simp only [ModoDeteccaoState.atualiza_modo, h]
    split_ifs <;> simp_all
  · simp only [ModoDeteccaoState.atualiza_modo]

/-- C3 witness: the theorem applied to the concrete stopped state
`⟨5, 60, 1, true, 0, 0, parado, detectando, 0⟩` evaluated with no motion
at time `60`, and the clock clause applied to a `detectando` state
evaluated with no motion at time `7`. -/
theorem C3_parado_transicao_e_relogio_witness :
    (⟨5, 60, 1, true, 0, 0, Modo.parado, Modo.detectando, 0⟩ :
        ModoDeteccaoState).modo = Modo.parado
    ∧ ((((⟨5, 60, 1, true, 0, 0, Modo.parado, Modo.detectando, 0⟩ :
            ModoDeteccaoState).atualiza_modo false 60).modo =
          Modo.detectando ↔
        false = true ∨ (60 : ℚ) ≤ 60 - 0)
      ∧ (((⟨5, 60, 1, true, 0, 0, Modo.parado, Modo.detectando, 0⟩ :
            ModoDeteccaoState).atualiza_modo false 60).modo =
            Modo.detectando ∨
          ((⟨5, 60, 1, true, 0, 0, Modo.parado, Modo.detectando, 0⟩ :
            ModoDeteccaoState).atualiza_modo false 60).modo = Modo.parado)
      ∧ (((⟨5, 60, 1, true, 0, 0, Modo.detectando, Modo.detectando, 0⟩ :
            ModoDeteccaoState).atualiza_modo false 7).tempo_em_que_parou =
          if ((⟨5, 60, 1, true, 0, 0, Modo.detectando, Modo.detectando, 0⟩ :
                ModoDeteccaoState).atualiza_modo false 7).modo =
              Modo.parado ∧
            (⟨5, 60, 1, true, 0, 0, Modo.detectando, Modo.detectando, 0⟩ :
                ModoDeteccaoState).modo ≠ Modo.parado then 7
          else 0)) :=
  ⟨rfl, C3_parado_transicao_e_relogio _ _ false false 60 7 rfl⟩

/-- C9: the first evaluation of a freshly constructed controller always
yields `detectando`, whatever the motion signal, the thresholds and the
times; and after any evaluation of any state the mode is one of
`detectando`, `rastreando`, `parado` (never the initial unset value). -/
theorem C9_primeira_avaliacao_detecta_e_modos_fechados
    (msd mp msam t0 : ℚ) (ur m0 : Bool) (t1 : ℚ)
    (s : ModoDeteccaoState) (m : Bool) (t : ℚ) :
    ((ModoDeteccaoState.init msd mp ur msam t0).atualiza_modo m0 t1).modo =
        Modo.detectando
    ∧ ((s.atualiza_modo m t).modo = Modo.detectando ∨
        (s.atualiza_modo m t).modo = Modo.rastreando ∨
        (s.atualiza_modo m t).modo = Modo.parado) := by
  constructor
  · simp [ModoDeteccaoState.init, ModoDeteccaoState.atualiza_modo]
  · cases hs : s.modo <;>
      simp only [ModoDeteccaoState.atualiza_modo, hs] <;>
      split_ifs <;> simp_all

/-- C6 counterexample: constructing with `max_tempo_sem_deteccao = 0`
(a zero threshold) succeeds — the source only rejects strictly negative
values for this parameter (its docstring explicitly allows `0`) — so a
zero value for this threshold does not raise `ValueError`. -/
theorem C6_zero_sem_deteccao_aceito :
    DetectorPessoasVideoInit 0 60 700 false =
      Except.ok ⟨0, 60, 700, false⟩ := by
  norm_num [DetectorPessoasVideoInit]

/-- C6 amended: construction succeeds (storing the configuration) if and
only if `max_tempo_sem_deteccao ≥ 0`, `max_tempo_parado > 0` and
`max_largura_frame > 0`; it raises `ValueError` if and only if
`max_tempo_sem_deteccao < 0`, `max_tempo_parado ≤ 0` or
`max_largura_frame ≤ 0`.  In particular zero is accepted for
`max_tempo_sem_deteccao` but rejected for the other two thresholds. -/
theorem C6_validacao_limiares (a b : ℚ) (c : ℤ) (r : Bool) :
    ((DetectorPessoasVideoInit a b c r = Except.ok ⟨a, b, c, r⟩) ↔
      (0 ≤ a ∧ 0 < b ∧ 0 < c))
    ∧ ((∃ e, DetectorPessoasVideoInit a b c r = Except.error e) ↔
      (a < 0 ∨ b ≤ 0 ∨ c ≤ 0)) := by
  by_cases h1 : a < 0
  · simp [DetectorPessoasVideoInit, h1, h1.not_le]
  · by_cases h2 : b ≤ 0
    · simp [DetectorPessoasVideoInit, h1, h2, h2.not_lt]
    · by_cases h3 : c ≤ 0
      · simp [DetectorPessoasVideoInit, h1, h2, h3, h3.not_lt]
      · simp [DetectorPessoasVideoInit, h1, h2, h3, not_lt.mp h1,
          not_le.mp h2, not_le.mp h3]

/-- C7: in the registry/history step of every loop iteration, the
registry after the step is exactly the result of merging with
`caixas_paradas = (modo == parado)` (the frozen flag), applied to the
registry reset to empty when the iteration overran
`MAX_TEMPO_ENTRE_REGISTROS` and to the unchanged registry otherwise;
the box list bound back by the caller equals the boxes held after the
merge; and the count recorded into the history is the post-merge
registry count, never a stale pre-merge count. -/
theorem C7_registro_congelado_e_contagem (registradas : CaixasObjetos)
    (historico : PessoasHistorico) (modo : Modo) (caixas : List Caixa)
    (pesos : List ℚ) (t0 t : ℚ) :
    (iteracaoRegistro registradas historico modo caixas pesos t0 t).1 =
      ((if t - t0 > 1 then CaixasObjetos.vazio else registradas).atualizar
          caixas pesos (modo == Modo.parado)).1
    ∧ (iteracaoRegistro registradas historico modo caixas pesos t0
          t).2.2.1 =
        (iteracaoRegistro registradas historico modo caixas pesos t0
          t).1.caixas
    ∧ (iteracaoRegistro registradas historico modo caixas pesos t0 t).2.1 =
        historico.atualiza_periodo
          (iteracaoRegistro registradas historico modo caixas pesos t0
            t).1.count := by
  simp only [iteracaoRegistro, CaixasObjetos.atualizar,
    CaixasObjetos.reiniciar, CaixasObjetos.count,
    PessoasHistorico.atualiza_periodo]
  split_ifs <;> simp

/-- C10: when the stream or the person detector is not configured, `run`
returns at once: no frame is read, neither the stream nor the motion
detector is started (the action trace is empty), and the object state —
registry, history, frame, mode and stopped flag alike — is returned
unchanged. -/
theorem C10_sem_configuracao_retorna_imediatamente
    (stream_configurado detector_configurado stream_externo : Bool)
    (cfg : DetectorPessoasVideoConfig) (t0 : ℚ)
    (self : DetectorPessoasVideoState) (entradas : List IterInput)
    (h : stream_configurado = false ∨ detector_configurado = false) :
    DetectorPessoasVideoRun stream_configurado detector_configurado
        stream_externo cfg t0 self entradas = some (self, []) := by
  rcases h with h | h <;> simp [DetectorPessoasVideoRun, h]

/-- C10 witness: `run` with a configured detector but no stream returns
the unchanged state and the empty action trace. -/
theorem C10_sem_configuracao_retorna_imediatamente_witness :
    (false = false ∨ true = false)
    ∧ DetectorPessoasVideoRun false true false ⟨5, 60, 700, false⟩ 0
        ⟨⟨[], []⟩, [], none, Modo.vazio, false⟩ [] =
      some (⟨⟨[], []⟩, [], none, Modo.vazio, false⟩, []) :=
  ⟨Or.inl rfl,
    C10_sem_configuracao_retorna_imediatamente false true false
      ⟨5, 60, 700, false⟩ 0 ⟨⟨[], []⟩, [], none, Modo.vazio, false⟩ []
      (Or.inl rfl)⟩

/-- Every termination of the while loop, on whatever exit path, goes
through the cleanup code: the final state has `stopped = true` and the
action trace ends with stopping the motion detector, stopping the stream
exactly when it is not external, and `self.stop()`. -/
theorem runLoop_termina_com_limpeza (stream_externo : Bool) :
    ∀ (entradas : List IterInput) (md : ModoDeteccaoState)
      (self : DetectorPessoasVideoState) (acoes : List Acao)
      (st : DetectorPessoasVideoState) (acts : List Acao),
      runLoop stream_externo entradas md self acoes = some (st, acts) →
      st.stopped = true ∧
        ∃ pre, acts = pre ++ [Acao.detector_movimento_stop] ++
          (if stream_externo then [] else [Acao.stream_stop]) ++
          [Acao.self_stop] := by
  intro entradas
  induction entradas with
  | nil =>
    intro md self acoes st acts h
    simp [runLoop] at h
  | cons entrada resto ih =>
    intro md self acoes st acts h
    by_cases hstop : (self.stopped || entrada.stop_sinal) = true
    · rw [runLoop, if_pos hstop] at h
      obtain ⟨rfl, rfl⟩ := by simpa using h.symm
      exact ⟨rfl, acoes, rfl⟩
    · rw [runLoop, if_neg hstop] at h
      rcases hl : entrada.leitura with _ | frame
      · rw [hl] at h
        obtain ⟨rfl, rfl⟩ := by simpa using h.symm
        exact ⟨rfl, acoes ++ [Acao.le_frame], by simp⟩
      · rw [hl] at h
        simp only at h
        rcases hm : (md.atualiza_modo entrada.movimento entrada.tempo).modo
          with _ | _ | _ | _
        · rw [hm] at h
          simp only [reduceCtorEq, if_neg, if_false] at h
          exact ih _ _ _ _ _ h
        · rw [hm] at h
          simp only [if_true, reduceIte] at h
          rcases hd : entrada.deteccao with _ | par
          · rw [hd] at h
            obtain ⟨rfl, rfl⟩ := by simpa using h.symm
            exact ⟨rfl, acoes ++ [Acao.le_frame, Acao.detecta], by simp⟩
          · rw [hd] at h
            exact ih _ _ _ _ _ h
        · rw [hm] at h
          simp only [reduceCtorEq, reduceIte] at h
          exact ih _ _ _ _ _ h
        · rw [hm] at h
          simp only [reduceCtorEq, reduceIte] at h
          exact ih _ _ _ _ _ h

/-- C8: (i) every terminating run of a configured loop ends with the
cleanup: the final state is marked stopped and the action trace ends
with stopping the motion detector, stopping the video source exactly
when it was internally constructed, then `self.stop()`; (ii) a frame
read failure terminates the loop at once — the rest of the schedule is
irrelevant (no retry); (iii) a detection failure in `detectando` mode
likewise terminates the loop at once with no retry. -/
theorem C8_falhas_terminam_e_recursos_liberados
    (stream_externo : Bool) (cfg : DetectorPessoasVideoConfig) (t0 : ℚ)
    (self0 : DetectorPessoasVideoState) (entradas : List IterInput)
    (stF : DetectorPessoasVideoState) (actsF : List Acao)
    (entrada : IterInput) (resto : List IterInput)
    (md : ModoDeteccaoState) (self1 : DetectorPessoasVideoState)
    (acoes : List Acao) (entrada2 : IterInput) (resto2 : List IterInput)
    (md2 : ModoDeteccaoState) (self2 : DetectorPessoasVideoState)
    (acoes2 : List Acao) (frame2 : ℕ)
    (hrun : DetectorPessoasVideoRun true true stream_externo cfg t0 self0
        entradas = some (stF, actsF))
    (h1a : self1.stopped = false) (h1b : entrada.stop_sinal = false)
    (h1c : entrada.leitura = none)
    (h2a : self2.stopped = false) (h2b : entrada2.stop_sinal = false)
    (h2c : entrada2.leitura = some frame2)
    (h2d : (md2.atualiza_modo entrada2.movimento entrada2.tempo).modo =
        Modo.detectando)
    (h2e : entrada2.deteccao = none) :
    (stF.stopped = true ∧
      ∃ pre, actsF = pre ++ [Acao.detector_movimento_stop] ++
        (if stream_externo then [] else [Acao.stream_stop]) ++
        [Acao.self_stop])
    ∧ runLoop stream_externo (entrada :: resto) md self1 acoes =
        runLoop stream_externo [entrada] md self1 acoes
    ∧ runLoop stream_externo (entrada2 :: resto2) md2 self2 acoes2 =
        runLoop stream_externo [entrada2] md2 self2 acoes2 := by
  refine ⟨?_, ?_, ?_⟩
  · simp only [DetectorPessoasVideoRun, not_true, or_self, if_false,
      reduceIte] at hrun
    exact runLoop_termina_com_limpeza stream_externo entradas _ _ _ _ _ hrun
  · simp [runLoop, h1a, h1b, h1c]
  · simp [runLoop, h2a, h2b, h2c, h2d, h2e]

/-- C8 witness: a run terminated by an external stop signal on an
external stream, a read-failure input, and a detection-failure input
with a fresh controller (whose first evaluation is `detectando`). -/
theorem C8_falhas_terminam_e_recursos_liberados_witness :
    (DetectorPessoasVideoRun true true true ⟨5, 60, 700, false⟩ 0
        ⟨⟨[], []⟩, [], none, Modo.vazio, false⟩
        [⟨true, none, 0, false, 0, none, [], 0⟩] =
      some (⟨⟨[], []⟩, [], none, Modo.vazio, true⟩,
        [Acao.stream_start, Acao.detector_movimento_start,
          Acao.detector_movimento_stop, Acao.self_stop]))
    ∧ ((⟨⟨[], []⟩, [], none, Modo.vazio, true⟩ :
          DetectorPessoasVideoState).stopped = true ∧
        ∃ pre, [Acao.stream_start, Acao.detector_movimento_start,
            Acao.detector_movimento_stop, Acao.self_stop] =
          pre ++ [Acao.detector_movimento_stop] ++
            (if true then [] else [Acao.stream_stop]) ++ [Acao.self_stop])
    ∧ runLoop true
        [⟨false, none, 0, false, 0, none, [], 0⟩,
          ⟨false, none, 0, false, 0, none, [], 0⟩]
        (ModoDeteccaoState.init 5 60 false 1 0)
        ⟨⟨[], []⟩, [], none, Modo.vazio, false⟩ [] =
      runLoop true [⟨false, none, 0, false, 0, none, [], 0⟩]
        (ModoDeteccaoState.init 5 60 false 1 0)
        ⟨⟨[], []⟩, [], none, Modo.vazio, false⟩ []
    ∧ runLoop true
        [⟨false, some 7, 0, false, 3, none, [], 0⟩,
          ⟨false, none, 0, false, 0, none, [], 0⟩]
        (ModoDeteccaoState.init 5 60 false 1 0)
        ⟨⟨[], []⟩, [], none, Modo.vazio, false⟩ [] =
      runLoop true [⟨false, some 7, 0, false, 3, none, [], 0⟩]
        (ModoDeteccaoState.init 5 60 false 1 0)
        ⟨⟨[], []⟩, [], none, Modo.vazio, false⟩ [] := by
  refine ⟨rfl, ?_⟩
  exact C8_falhas_terminam_e_recursos_liberados true ⟨5, 60, 700, false⟩ 0
    ⟨⟨[], []⟩, [], none, Modo.vazio, false⟩
    [⟨true, none, 0, false, 0, none, [], 0⟩]
    ⟨⟨[], []⟩, [], none, Modo.vazio, true⟩
    [Acao.stream_start, Acao.detector_movimento_start,
      Acao.detector_movimento_stop, Acao.self_stop]
    ⟨false, none, 0, false, 0, none, [], 0⟩
    [⟨false, none, 0, false, 0, none, [], 0⟩]
    (ModoDeteccaoState.init 5 60 false 1 0)
    ⟨⟨[], []⟩, [], none, Modo.vazio, false⟩ []
    ⟨false, some 7, 0, false, 3, none, [], 0⟩
    [⟨false, none, 0, false, 0, none, [], 0⟩]
    (ModoDeteccaoState.init 5 60 false 1 0)
    ⟨⟨[], []⟩, [], none, Modo.vazio, false⟩ [] 7
    rfl rfl rfl rfl rfl rfl rfl
    (by norm_num [ModoDeteccaoState.init, ModoDeteccaoState.atualiza_modo] <;>
      decide) rfl
